import Mathlib

/-!
Shallow embedding of the task/assignment/review/reward workflow of the
FAST-API repository (src/app/api/assignment.py, src/app/api/review.py and
the crud modules they call).  Database rows become lists of structures,
SQLAlchemy queries become List.find?/filter, and each endpoint becomes a
pure function from a state to an `Except` of an error or a new state.
Timestamps are modelled as natural numbers passed in as a `now` argument.
Notification rows influence nothing the claims mention and are omitted.
-/

namespace TaskMarket

/-- Task statuses, from app/models/task.py (TaskStatus). `open` is a Lean
keyword, hence the trailing underscore. -/
inductive TaskStatus where
  | open_
  | in_progress
  | pending_review
  | completed
  | closed
deriving DecidableEq, Repr

/-- Assignment statuses as read and written by the workflow layer
(app/api/assignment.py, app/api/review.py, app/crud/assignment.py and the
unit tests).  The enum literally declared in app/models/assignment.py
differs from these names; that discrepancy is the subject of claim C8 and
is embedded separately below as `ModelAssignmentStatus`. -/
inductive AssignmentStatus where
  | task_pending
  | task_receive
  | task_receivement_rejected
  | assignment_submission_pending
  | task_completed
  | task_reject
  | appealing
deriving DecidableEq, Repr

/-- The `AssignmentStatus` enum exactly as declared in
app/models/assignment.py lines 12-19. -/
inductive ModelAssignmentStatus where
  | task_pending
  | user_approved
  | user_rejected
  | appealing
  | task_completed
  | task_reject
  | task_progress
deriving DecidableEq, Repr

/-- The `.value` string of each member of the model enum, in declaration
order (app/models/assignment.py lines 13-19). -/
def modelAssignmentStatusValues : List String :=
  ["task_pending", "user_approved", "user_rejected", "appealing",
   "task_completed", "task_reject", "task_progress"]

/-- The string name of each status the workflow layer uses. -/
def AssignmentStatus.value : AssignmentStatus → String
  | .task_pending => "task_pending"
  | .task_receive => "task_receive"
  | .task_receivement_rejected => "task_receivement_rejected"
  | .assignment_submission_pending => "assignment_submission_pending"
  | .task_completed => "task_completed"
  | .task_reject => "task_reject"
  | .appealing => "appealing"

/-- Review results, from app/models/review.py (ReviewResult). -/
inductive ReviewResult where
  | pending
  | approved
  | rejected
  | appealing
deriving DecidableEq, Repr

/-- Review types, from app/models/review.py (ReviewType). -/
inductive ReviewType where
  | acceptance_review
  | submission_review
  | appeal_review
deriving DecidableEq, Repr

/-- Reward statuses, from app/models/reward.py (RewardStatus). -/
inductive RewardStatus where
  | pending
  | issued
  | failed
deriving DecidableEq, Repr

/-- User roles, from app/models/user.py (UserRole). -/
inductive UserRole where
  | user
  | publisher
  | admin
deriving DecidableEq, Repr

/-- A Task row (app/models/task.py).  Fields the workflow never reads
(title, description, timestamps) are omitted. -/
structure Task where
  id : Nat
  publisher_id : Nat
  reward_amount : Rat
  status : TaskStatus
deriving DecidableEq, Repr

/-- A TaskAssignment row (app/models/assignment.py). -/
structure Assignment where
  id : Nat
  task_id : Nat
  user_id : Nat
  submit_content : Option String
  submit_time : Option Nat
  status : AssignmentStatus
  review_time : Option Nat
deriving DecidableEq, Repr

/-- A Review row (app/models/review.py). -/
structure Review where
  id : Nat
  assignment_id : Nat
  reviewer_id : Nat
  review_type : ReviewType
  review_result : ReviewResult
  review_comment : Option String
  review_time : Nat
deriving DecidableEq, Repr

/-- A Reward row (app/models/reward.py). -/
structure Reward where
  id : Nat
  assignment_id : Nat
  amount : Rat
  status : RewardStatus
deriving DecidableEq, Repr

/-- A User row; only the fields the workflow reads. -/
structure User where
  id : Nat
  role : UserRole
deriving DecidableEq, Repr

/-- The database state: each table as a list in insertion (= id) order,
plus autoincrement counters. -/
structure St where
  tasks : List Task
  assignments : List Assignment
  reviews : List Review
  rewards : List Reward
  users : List User
  next_assignment_id : Nat
  next_review_id : Nat
  next_reward_id : Nat
deriving DecidableEq, Repr

/-- Body of `POST /api/assignment/accept` (schema AssignmentCreate). -/
structure AssignmentCreate where
  task_id : Nat
  submit_content : Option String
deriving DecidableEq, Repr

/-- Schema AssignmentUpdate (app/schemas/assignment.py): only
submit_content, status and review_time exist; a submit_time keyword passed
by callers is silently dropped by pydantic.  The outer Option records
whether the field was set at all (pydantic's exclude_unset). -/
structure AssignmentUpdate where
  submit_content : Option (Option String) := none
  status : Option AssignmentStatus := none
  review_time : Option (Option Nat) := none

/-- Schema TaskUpdate, restricted to the one field the workflow sets. -/
structure TaskUpdate where
  status : Option TaskStatus := none

/-- Schema ReviewCreate (app/schemas/review.py). -/
structure ReviewCreate where
  assignment_id : Nat
  review_result : ReviewResult
  review_type : ReviewType
  review_comment : Option String
deriving DecidableEq, Repr

/-- Schema ReviewUpdate (app/schemas/review.py): only review_result and
review_comment exist; reviewer_id and review_time keywords passed by
app/api/review.py are silently dropped by pydantic. -/
structure ReviewUpdate where
  review_result : Option ReviewResult := none
  review_comment : Option (Option String) := none

/-- Schema RewardCreate (app/schemas/reward.py): assignment_id and amount;
the `RewardStatus=` and `created_at=` keywords passed at
app/api/review.py line 138 are not schema fields and are dropped. -/
structure RewardCreate where
  assignment_id : Nat
  amount : Rat

/-- Python truthiness of an optional string (`if assignment.submit_content:`). -/
def truthy : Option String → Bool
  | none => false
  | some s => s != ""

/-- `db.query(Task).filter(Task.id == task_id).first()` (crud/task.py get_task). -/
def get_task (s : St) (task_id : Nat) : Option Task :=
  s.tasks.find? (fun t => t.id == task_id)

/-- crud/assignment.py get_assignment. -/
def get_assignment (s : St) (assignment_id : Nat) : Option Assignment :=
  s.assignments.find? (fun a => a.id == assignment_id)

/-- The duplicate-accept lookup inside crud/assignment.py create_assignment. -/
def find_assignment_pair (s : St) (task_id user_id : Nat) : Option Assignment :=
  s.assignments.find? (fun a => a.task_id == task_id && a.user_id == user_id)

/-- crud/review.py get_review. -/
def get_review (s : St) (review_id : Nat) : Option Review :=
  s.reviews.find? (fun r => r.id == review_id)

/-- crud/review.py get_pending_review. -/
def get_pending_review (s : St) (assignment_id : Nat) (ty : ReviewType) : Option Review :=
  s.reviews.find? (fun r =>
    r.assignment_id == assignment_id && r.review_type == ty &&
      r.review_result == ReviewResult.pending)

/-- crud/reward.py get_reward_by_assignment_id. -/
def get_reward_by_assignment_id (s : St) (assignment_id : Nat) : Option Reward :=
  s.rewards.find? (fun r => r.assignment_id == assignment_id)

/-- crud/user.py get_first_admin: the admin user with the smallest id. -/
def get_first_admin (s : St) : Option User :=
  (s.users.filter (fun u => u.role == UserRole.admin)).foldl
    (fun acc u =>
      match acc with
      | none => some u
      | some v => if u.id < v.id then some u else some v)
    none

/-- Apply an AssignmentUpdate to one row (setattr per set field). -/
def applyAssignmentUpdate (a : Assignment) (u : AssignmentUpdate) : Assignment :=
  { a with
    submit_content := u.submit_content.getD a.submit_content
    status := u.status.getD a.status
    review_time := u.review_time.getD a.review_time }

/-- crud/assignment.py update_assignment (the row's columns only). -/
def update_assignment (s : St) (assignment_id : Nat) (u : AssignmentUpdate) : St :=
  { s with assignments := s.assignments.map (fun a =>
      if a.id == assignment_id then applyAssignmentUpdate a u else a) }

/-- crud/task.py update_task. -/
def update_task (s : St) (task_id : Nat) (u : TaskUpdate) : St :=
  { s with tasks := s.tasks.map (fun t =>
      if t.id == task_id then { t with status := u.status.getD t.status } else t) }

/-- Apply a ReviewUpdate to one row. -/
def applyReviewUpdate (r : Review) (u : ReviewUpdate) : Review :=
  { r with
    review_result := u.review_result.getD r.review_result
    review_comment := u.review_comment.getD r.review_comment }

/-- crud/review.py update_review. -/
def update_review (s : St) (review_id : Nat) (u : ReviewUpdate) : St :=
  { s with reviews := s.reviews.map (fun r =>
      if r.id == review_id then applyReviewUpdate r u else r) }

/-- crud/review.py create_review: inserts the row exactly as given
(`Create a review row only (no business side effects)`). -/
def create_review (s : St) (review : ReviewCreate) (reviewer_id : Nat) (now : Nat) :
    St × Review :=
  let r : Review :=
    { id := s.next_review_id
      assignment_id := review.assignment_id
      reviewer_id := reviewer_id
      review_type := review.review_type
      review_result := review.review_result
      review_comment := review.review_comment
      review_time := now }
  ({ s with reviews := s.reviews ++ [r], next_review_id := s.next_review_id + 1 }, r)

/-- crud/reward.py create_reward: status is always RewardStatus.pending. -/
def create_reward (s : St) (reward : RewardCreate) : St × Reward :=
  let r : Reward :=
    { id := s.next_reward_id
      assignment_id := reward.assignment_id
      amount := reward.amount
      status := RewardStatus.pending }
  ({ s with rewards := s.rewards ++ [r], next_reward_id := s.next_reward_id + 1 }, r)

/-- crud/assignment.py reject_other_pending_assignments. -/
def reject_other_pending_assignments (s : St) (task_id accepted_assignment_id : Nat) : St :=
  { s with assignments := s.assignments.map (fun a =>
      if a.task_id == task_id && a.id != accepted_assignment_id &&
          a.status == AssignmentStatus.task_pending then
        { a with status := AssignmentStatus.task_receivement_rejected }
      else a) }

/-- crud/review.py reject_other_pending_reviews.  NOTE: this function is
defined in the repository but never called from any endpoint. -/
def reject_other_pending_reviews (s : St) (task_id accepted_assignment_id : Nat)
    (now : Nat) : St :=
  { s with reviews := s.reviews.map (fun r =>
      if r.review_type == ReviewType.acceptance_review &&
          r.review_result == ReviewResult.pending &&
          (s.assignments.any (fun a =>
            a.id == r.assignment_id && a.task_id == task_id &&
              a.id != accepted_assignment_id)) then
        { r with review_result := ReviewResult.rejected
                 review_comment := some "自动拒绝：该任务已被其他申请通过"
                 review_time := now }
      else r) }

/-- The distinct ValueError messages raised by crud/assignment.py
create_assignment, in check order. -/
inductive AcceptError where
  | taskNotFound
  | taskNotAvailable
  | alreadyAccepted
  | selfAccept
deriving DecidableEq, Repr

/-- The HTTP status code app/api/assignment.py accept_task maps each
ValueError message to ("not found" → 404, "already accepted" /
"cannot accept your own" → 409, "not available" → 400). -/
def AcceptError.http_code : AcceptError → Nat
  | .taskNotFound => 404
  | .taskNotAvailable => 400
  | .alreadyAccepted => 409
  | .selfAccept => 409

/-- HTTPException kinds raised directly by the endpoints. -/
inductive ApiErr where
  | notFound
  | permissionDenied
  | invalidState
deriving DecidableEq, Repr

def ApiErr.http_code : ApiErr → Nat
  | .notFound => 404
  | .permissionDenied => 403
  | .invalidState => 400

/-- crud/assignment.py create_assignment: checks in source order, then
inserts the row with status task_pending. -/
def create_assignment (s : St) (assignment : AssignmentCreate) (user_id : Nat) :
    Except AcceptError (St × Assignment) :=
  match get_task s assignment.task_id with
  | none => .error .taskNotFound
  | some task =>
    if task.status != TaskStatus.open_ then .error .taskNotAvailable
    else
      match find_assignment_pair s assignment.task_id user_id with
      | some _ => .error .alreadyAccepted
      | none =>
        if task.publisher_id == user_id then .error .selfAccept
        else
          let a : Assignment :=
            { id := s.next_assignment_id
              task_id := assignment.task_id
              user_id := user_id
              submit_content := assignment.submit_content
              submit_time := none
              status := AssignmentStatus.task_pending
              review_time := none }
          .ok ({ s with assignments := s.assignments ++ [a]
                        next_assignment_id := s.next_assignment_id + 1 }, a)

/-- POST /api/assignment/accept (app/api/assignment.py accept_task).
After a successful create_assignment, a pending acceptance review is
created only when get_first_admin finds an admin; when it does not, the
handler falls off the end of the function and returns no response body,
which we model as `none` in the second component. -/
def accept_task (s : St) (current_user_id : Nat) (assignment : AssignmentCreate)
    (now : Nat) : Except AcceptError (St × Option Assignment) :=
  match create_assignment s assignment current_user_id with
  | .error e => .error e
  | .ok (s1, created) =>
    match get_first_admin s1 with
    | some _ =>
      let s2 := (create_review s1
        { assignment_id := created.id
          review_result := ReviewResult.pending
          review_type := ReviewType.acceptance_review
          review_comment := some "自动生成接取任务待审核记录" }
        current_user_id now).1
      .ok (s2, some created)
    | none => .ok (s1, none)

/-- POST /api/assignment/submit/{assignment_id}
(app/api/assignment.py submit_assignment).  `submit_content` is the form
field, or the stored file path when a file is uploaded.  There is no
check on assignment.status.  The submit_time keyword is dropped by the
AssignmentUpdate schema, so only submit_content and status change. -/
def submit_assignment (s : St) (current_user_id assignment_id : Nat)
    (submit_content : Option String) (now : Nat) : Except ApiErr St :=
  match get_assignment s assignment_id with
  | none => .error .notFound
  | some assignment =>
    if assignment.user_id != current_user_id then .error .permissionDenied
    else
      let s1 := update_assignment s assignment_id
        { submit_content := some submit_content
          status := some AssignmentStatus.assignment_submission_pending }
      let s2 :=
        match get_first_admin s1 with
        | some _ =>
          (create_review s1
            { assignment_id := assignment_id
              review_result := ReviewResult.pending
              review_type := ReviewType.submission_review
              review_comment := some "自动生成作业提交待审核记录" }
            current_user_id now).1
        | none => s1
      .ok s2

/-- PATCH /api/assignment/{assignment_id}/progress
(app/api/assignment.py update_assignment_progress): after the existence
and ownership checks, the caller-supplied AssignmentUpdate is applied
verbatim. -/
def update_assignment_progress (s : St) (current_user_id assignment_id : Nat)
    (update : AssignmentUpdate) : Except ApiErr St :=
  match get_assignment s assignment_id with
  | none => .error .notFound
  | some assignment =>
    if assignment.user_id != current_user_id then .error .permissionDenied
    else .ok (update_assignment s assignment_id update)

/-- POST /api/assignment/appeal/{assignment_id}
(app/api/assignment.py appeal_assignment). -/
def appeal_assignment (s : St) (current_user_id assignment_id : Nat)
    (appeal_reason : String) (now : Nat) : Except ApiErr St :=
  match get_assignment s assignment_id with
  | none => .error .notFound
  | some assignment =>
    if assignment.user_id != current_user_id then .error .permissionDenied
    else if assignment.status != AssignmentStatus.task_completed &&
        assignment.status != AssignmentStatus.task_reject then
      .error .invalidState
    else
      let s1 := update_assignment s assignment_id
        { status := some AssignmentStatus.appealing }
      let s2 :=
        match get_first_admin s1 with
        | some _ =>
          (create_review s1
            { assignment_id := assignment_id
              review_result := ReviewResult.pending
              review_type := ReviewType.appeal_review
              review_comment := some ("用户申诉: " ++ appeal_reason) }
            current_user_id now).1
        | none => s1
      .ok s2

/-- POST /api/assignment/redo/{assignment_id}
(app/api/assignment.py redo_assignment).  The submit_time=None keyword is
dropped by the AssignmentUpdate schema. -/
def redo_assignment (s : St) (current_user_id assignment_id : Nat) :
    Except ApiErr St :=
  match get_assignment s assignment_id with
  | none => .error .notFound
  | some assignment =>
    if assignment.user_id != current_user_id then .error .permissionDenied
    else if assignment.status != AssignmentStatus.task_reject then
      .error .invalidState
    else
      let s1 := update_assignment s assignment_id
        { status := some AssignmentStatus.task_receive
          submit_content := some none }
      match get_task s1 assignment.task_id with
      | some task =>
        if task.status != TaskStatus.in_progress then
          .ok (update_task s1 task.id { status := some TaskStatus.in_progress })
        else .ok s1
      | none => .ok s1

/-- app/api/review.py validate_review_preconditions: `true` when the
function raises no HTTPException (every raise in it is a 400). -/
def validate_review_preconditions (review_type : ReviewType)
    (review_result : ReviewResult) (assignment : Assignment)
    (old_review_result : ReviewResult := ReviewResult.pending) : Bool :=
  match review_type with
  | .acceptance_review =>
    !(old_review_result == ReviewResult.pending &&
        assignment.status != AssignmentStatus.task_pending) &&
    !(truthy assignment.submit_content) &&
    (review_result == ReviewResult.approved || review_result == ReviewResult.rejected)
  | .submission_review =>
    !(old_review_result == ReviewResult.pending &&
        assignment.status != AssignmentStatus.assignment_submission_pending) &&
    truthy assignment.submit_content &&
    (review_result == ReviewResult.approved || review_result == ReviewResult.rejected)
  | .appeal_review =>
    !(old_review_result == ReviewResult.pending &&
        assignment.status != AssignmentStatus.appealing)

/-- app/api/review.py apply_review_action (lines 63-331): the state
transitions each decision performs.  `assignment` and `task` are the rows
looked up by the caller before the call.  Notification rows are omitted
(they carry no workflow state).  The second
`elif review_type == ReviewType.appeal_review:` block at lines 262-322 is
unreachable — Python dispatches to the first branch with the same
condition at line 170 — so only the first appeal branch (lines 170-260,
which performs no Reward mutation) is embedded. -/
def apply_review_action (s : St) (assignment : Assignment) (task : Task)
    (review_type : ReviewType) (new_result : ReviewResult)
    (comment : Option String) (old_result : ReviewResult) (now : Nat) : St :=
  let _ := comment
  match review_type with
  | .acceptance_review =>
    if new_result == ReviewResult.approved then
      let s1 := update_assignment s assignment.id
        { status := some AssignmentStatus.task_receive
          review_time := some (some now) }
      let s2 :=
        if task.status == TaskStatus.open_ then
          update_task s1 task.id { status := some TaskStatus.in_progress }
        else s1
      reject_other_pending_assignments s2 task.id assignment.id
    else if new_result == ReviewResult.rejected then
      let s1 := update_assignment s assignment.id
        { status := some AssignmentStatus.task_receivement_rejected
          review_time := some (some now) }
      update_task s1 task.id { status := some TaskStatus.open_ }
    else s
  | .submission_review =>
    if new_result == ReviewResult.approved then
      let s1 := update_assignment s assignment.id
        { status := some AssignmentStatus.task_completed
          review_time := some (some now) }
      let s2 := update_task s1 task.id { status := some TaskStatus.completed }
      match get_reward_by_assignment_id s2 assignment.id with
      | some _ => s2
      | none =>
        (create_reward s2
          { assignment_id := assignment.id, amount := task.reward_amount }).1
    else if new_result == ReviewResult.rejected then
      let s1 := update_assignment s assignment.id
        { status := some AssignmentStatus.task_reject
          review_time := some (some now) }
      if task.status == TaskStatus.completed then
        update_task s1 task.id { status := some TaskStatus.in_progress }
      else s1
    else s
  | .appeal_review =>
    if new_result != old_result then
      if new_result == ReviewResult.approved then
        if task.status == TaskStatus.completed then
          let s1 := update_task s task.id { status := some TaskStatus.in_progress }
          update_assignment s1 assignment.id
            { status := some AssignmentStatus.task_receive }
        else if task.status == TaskStatus.in_progress then
          let s1 := update_task s task.id { status := some TaskStatus.completed }
          update_assignment s1 assignment.id
            { status := some AssignmentStatus.task_completed }
        else s
      else if new_result == ReviewResult.rejected then
        if old_result == ReviewResult.approved then
          if task.status == TaskStatus.in_progress then
            let s1 := update_task s task.id { status := some TaskStatus.completed }
            update_assignment s1 assignment.id
              { status := some AssignmentStatus.task_completed }
          else if task.status == TaskStatus.completed then
            let s1 := update_task s task.id { status := some TaskStatus.in_progress }
            update_assignment s1 assignment.id
              { status := some AssignmentStatus.task_receive }
          else s
        else
          if task.status == TaskStatus.completed then
            update_assignment s assignment.id
              { status := some AssignmentStatus.task_completed }
          else if task.status == TaskStatus.in_progress then
            update_assignment s assignment.id
              { status := some AssignmentStatus.task_receive }
          else s
      else s
    else s

/-- The shared reviewer-permission check of app/api/review.py:
admin, or publisher who owns the task. -/
def can_review (u : User) (task : Task) : Bool :=
  u.role == UserRole.admin ||
    (u.role == UserRole.publisher && task.publisher_id == u.id)

/-- POST /api/review/submit (app/api/review.py submit_review).  The
"Invalid review type" 400 branch is unreachable here: ReviewType has
exactly the three members the code enumerates.  On the update path the
reviewer_id and review_time keywords are dropped by the ReviewUpdate
schema, and review_comment is only updated for non-appeal types. -/
def submit_review (s : St) (current_user : User) (review : ReviewCreate)
    (now : Nat) : Except ApiErr St :=
  match get_assignment s review.assignment_id with
  | none => .error .notFound
  | some assignment =>
    match get_task s assignment.task_id with
    | none => .error .notFound
    | some task =>
      if !can_review current_user task then .error .permissionDenied
      else if !validate_review_preconditions review.review_type
          review.review_result assignment ReviewResult.pending then
        .error .invalidState
      else
        let s1 := apply_review_action s assignment task review.review_type
          review.review_result review.review_comment ReviewResult.pending now
        match get_pending_review s1 assignment.id review.review_type with
        | some pending =>
          .ok (update_review s1 pending.id
            { review_result := some review.review_result
              review_comment :=
                if review.review_type == ReviewType.appeal_review then none
                else some review.review_comment })
        | none => .ok (create_review s1 review current_user.id now).1

/-- Body of POST /api/review/{review_id} (schema ReviewUpdate as sent by
the client; review_comment's set-to-null and unset cases coincide because
the handler tests `is not None`). -/
structure ReviewUpdateIn where
  review_result : Option ReviewResult := none
  review_comment : Option String := none

/-- POST /api/review/{review_id} (app/api/review.py update_review_detail).
new_result falls back to the stored result when the body omits it
(Python `or` on an always-truthy enum); the review_time keyword in the
final update_review call is dropped by the ReviewUpdate schema. -/
def update_review_detail (s : St) (current_user : User) (review_id : Nat)
    (review_update : ReviewUpdateIn) (now : Nat) : Except ApiErr St :=
  match get_review s review_id with
  | none => .error .notFound
  | some db_review =>
    match get_assignment s db_review.assignment_id with
    | none => .error .notFound
    | some assignment =>
      match get_task s assignment.task_id with
      | none => .error .notFound
      | some task =>
        if !can_review current_user task then .error .permissionDenied
        else
          let new_result := review_update.review_result.getD db_review.review_result
          let new_comment :=
            match review_update.review_comment with
            | some c => some c
            | none => db_review.review_comment
          if !validate_review_preconditions db_review.review_type new_result
              assignment db_review.review_result then
            .error .invalidState
          else
            let s1 := apply_review_action s assignment task db_review.review_type
              new_result new_comment db_review.review_result now
            .ok (update_review s1 db_review.id
              { review_result := some new_result
                review_comment := some new_comment })

/-- One step of the system: a successful workflow call (the endpoints
embedded above), or an environment step creating a task or user through
the excluded task/auth endpoints. -/
inductive Step : St → St → Prop where
  | add_task (s : St) (t : Task) : Step s { s with tasks := s.tasks ++ [t] }
  | add_user (s : St) (u : User) : Step s { s with users := s.users ++ [u] }
  | accept (s s' : St) (uid : Nat) (ac : AssignmentCreate) (now : Nat)
      (r : Option Assignment)
      (h : accept_task s uid ac now = .ok (s', r)) : Step s s'
  | submit (s s' : St) (uid aid : Nat) (c : Option String) (now : Nat)
      (h : submit_assignment s uid aid c now = .ok s') : Step s s'
  | progress (s s' : St) (uid aid : Nat) (u : AssignmentUpdate)
      (h : update_assignment_progress s uid aid u = .ok s') : Step s s'
  | appeal (s s' : St) (uid aid : Nat) (reason : String) (now : Nat)
      (h : appeal_assignment s uid aid reason now = .ok s') : Step s s'
  | redo (s s' : St) (uid aid : Nat)
      (h : redo_assignment s uid aid = .ok s') : Step s s'
  | review_submit (s s' : St) (u : User) (rc : ReviewCreate) (now : Nat)
      (h : submit_review s u rc now = .ok s') : Step s s'
  | review_update (s s' : St) (u : User) (rid : Nat) (ru : ReviewUpdateIn)
      (now : Nat)
      (h : update_review_detail s u rid ru now = .ok s') : Step s s'

/-- The empty database the server starts from. -/
def init0 : St :=
  { tasks := [], assignments := [], reviews := [], rewards := [], users := []
    next_assignment_id := 1, next_review_id := 1, next_reward_id := 1 }

/-- States reachable from the empty database by workflow and environment
steps. -/
inductive Reach : St → Prop where
  | init : Reach init0
  | step {s s' : St} : Reach s → Step s s' → Reach s'

/-- Number of pending reviews of one type for one assignment — the
quantity the pending-uniqueness invariant bounds by one. -/
def countPending (s : St) (assignment_id : Nat) (ty : ReviewType) : Nat :=
  (s.reviews.filter (fun r =>
    r.assignment_id == assignment_id && r.review_type == ty &&
      r.review_result == ReviewResult.pending)).length

/-- At most one Reward row per assignment_id. -/
def rewardsUnique (s : St) : Prop :=
  (s.rewards.map Reward.assignment_id).Nodup

/-- Extract the state of a successful call, with a default for failures
(used only to name states of concrete traces). -/
def okSt (e : Except ApiErr St) (d : St) : St :=
  match e with
  | .ok s => s
  | .error _ => d

/-- Same, for accept_task results. -/
def okAccSt (e : Except AcceptError (St × Option Assignment)) (d : St) : St :=
  match e with
  | .ok (s, _) => s
  | .error _ => d

/-- Extract the response payload of a successful accept_task call. -/
def okAccPayload (e : Except AcceptError (St × Option Assignment)) :
    Option Assignment :=
  match e with
  | .ok (_, r) => r
  | .error _ => none

/-- Concrete base population: one admin, one publisher, one worker, one
open task published by the publisher. -/
def s_base : St :=
  { tasks := [{ id := 1, publisher_id := 2, reward_amount := 100
                status := TaskStatus.open_ }]
    assignments := [], reviews := [], rewards := []
    users := [{ id := 1, role := UserRole.admin },
              { id := 2, role := UserRole.publisher },
              { id := 3, role := UserRole.user }]
    next_assignment_id := 1, next_review_id := 1, next_reward_id := 1 }

/-- Worker 3 accepts task 1. -/
def sA : St := okAccSt (accept_task s_base 3 { task_id := 1, submit_content := none } 0) s_base

/-- Worker 3 submits work (note: sA's assignment is still task_pending). -/
def sB : St := okSt (submit_assignment sA 3 1 (some "v1") 1) sA

/-- Worker 3 submits a second time. -/
def sC : St := okSt (submit_assignment sB 3 1 (some "v2") 2) sB

/-- The first admin of `s_base`, used as reviewer in the traces. -/
def adminU : User := { id := 1, role := UserRole.admin }

/-- Worker directly sets the own assignment's status through the progress
endpoint. -/
def sD : St :=
  okSt (update_assignment_progress sA 3 1
    { status := some AssignmentStatus.task_completed }) sA

/-- Spec scenario B continued from sA: the acceptance review is approved. -/
def sF : St :=
  okSt (update_review_detail sA adminU 1
    { review_result := some ReviewResult.approved } 1) sA

/-- Worker 3 submits work (now from task_receive). -/
def sG : St := okSt (submit_assignment sF 3 1 (some "work") 2) sF

/-- The submission review is rejected. -/
def sH : St :=
  okSt (update_review_detail sG adminU 2
    { review_result := some ReviewResult.rejected, review_comment := some "bad" } 3) sG

/-- Worker 3 appeals the rejection. -/
def sI : St := okSt (appeal_assignment sH 3 1 "disagree" 4) sH

/-- The appeal review is approved. -/
def sJ : St :=
  okSt (update_review_detail sI adminU 3
    { review_result := some ReviewResult.approved } 5) sI

/-- The appeal decision is reversed from approved to rejected. -/
def sK : St :=
  okSt (update_review_detail sJ adminU 3
    { review_result := some ReviewResult.rejected } 6) sJ

/-- Base population with a second worker (id 4). -/
def s4_base : St :=
  { s_base with users := s_base.users ++ [{ id := 4, role := UserRole.user }] }

/-- Worker 3 accepts task 1. -/
def s4A : St :=
  okAccSt (accept_task s4_base 3 { task_id := 1, submit_content := none } 0) s4_base

/-- Worker 4 also accepts task 1. -/
def s4B : St :=
  okAccSt (accept_task s4A 4 { task_id := 1, submit_content := none } 1) s4A

/-- Worker 3's acceptance review is approved. -/
def s4C : St :=
  okSt (update_review_detail s4B adminU 1
    { review_result := some ReviewResult.approved } 2) s4B

/-- Population with no admin user at all. -/
def s_na : St :=
  { s_base with users := [{ id := 2, role := UserRole.publisher },
                          { id := 3, role := UserRole.user }] }

/-- A completed assignment used to exercise the reward-creation guard. -/
def aW : Assignment :=
  { id := 1, task_id := 1, user_id := 3, submit_content := some "w",
    submit_time := none, status := AssignmentStatus.task_completed, review_time := none }

/-- A state in which assignment 1 already owns a reward. -/
def sReward : St :=
  { s_base with
      assignments := [aW]
      rewards := [{ id := 1, assignment_id := 1, amount := 100,
                    status := RewardStatus.pending }]
      next_assignment_id := 2, next_reward_id := 2 }

/-- find? commutes with a map that does not change the predicate's
verdict. -/
theorem find?_map_pres {α : Type} (f : α → α) (p : α → Bool)
    (hp : ∀ x, p (f x) = p x) (l : List α) :
    (l.map f).find? p = (l.find? p).map f := by
  induction l with
  | nil => rfl
  | cons x xs ih =>
    simp only [List.map_cons, List.find?, hp]
    cases hx : p x
    · simpa [hx] using ih
    · simp [hx]

theorem applyAssignmentUpdate_id (a : Assignment) (u : AssignmentUpdate) :
    (applyAssignmentUpdate a u).id = a.id := rfl

theorem applyReviewUpdate_id (r : Review) (u : ReviewUpdate) :
    (applyReviewUpdate r u).id = r.id := rfl

/-- Row lookup after a row update. -/
theorem get_assignment_update_assignment (s : St) (i j : Nat) (u : AssignmentUpdate) :
    get_assignment (update_assignment s i u) j =
      (get_assignment s j).map
        (fun a => if a.id == i then applyAssignmentUpdate a u else a) := by
  unfold get_assignment update_assignment
  exact find?_map_pres _ _
    (fun x => by by_cases h : x.id == i <;> simp [h, applyAssignmentUpdate_id]) _

theorem get_task_update_task (s : St) (i j : Nat) (u : TaskUpdate) :
    get_task (update_task s i u) j =
      (get_task s j).map
        (fun t => if t.id == i then { t with status := u.status.getD t.status } else t) := by
  unfold get_task update_task
  exact find?_map_pres _ _ (fun x => by by_cases h : x.id == i <;> simp [h]) _

theorem get_review_update_review (s : St) (i j : Nat) (u : ReviewUpdate) :
    get_review (update_review s i u) j =
      (get_review s j).map
        (fun r => if r.id == i then applyReviewUpdate r u else r) := by
  unfold get_review update_review
  exact find?_map_pres _ _
    (fun x => by by_cases h : x.id == i <;> simp [h, applyReviewUpdate_id]) _

theorem reach_s_base : Reach s_base := by
  have h1 := Reach.step Reach.init
    (Step.add_user init0 { id := 1, role := UserRole.admin })
  have h2 := Reach.step h1 (Step.add_user _ { id := 2, role := UserRole.publisher })
  have h3 := Reach.step h2 (Step.add_user _ { id := 3, role := UserRole.user })
  have h4 := Reach.step h3 (Step.add_task _
    { id := 1, publisher_id := 2, reward_amount := 100, status := TaskStatus.open_ })
  exact h4

theorem reach_sA : Reach sA :=
  Reach.step reach_s_base
    (Step.accept s_base sA 3 { task_id := 1, submit_content := none } 0
      (okAccPayload (accept_task s_base 3 { task_id := 1, submit_content := none } 0)) rfl)

theorem reach_sB : Reach sB :=
  Reach.step reach_sA (Step.submit sA sB 3 1 (some "v1") 1 rfl)

theorem reach_sC : Reach sC :=
  Reach.step reach_sB (Step.submit sB sC 3 1 (some "v2") 2 rfl)

theorem reach_sD : Reach sD :=
  Reach.step reach_sA
    (Step.progress sA sD 3 1 { status := some AssignmentStatus.task_completed } rfl)

theorem reach_sF : Reach sF :=
  Reach.step reach_sA
    (Step.review_update sA sF adminU 1 { review_result := some ReviewResult.approved } 1 rfl)

theorem reach_sG : Reach sG :=
  Reach.step reach_sF (Step.submit sF sG 3 1 (some "work") 2 rfl)

theorem reach_sH : Reach sH :=
  Reach.step reach_sG
    (Step.review_update sG sH adminU 2
      { review_result := some ReviewResult.rejected, review_comment := some "bad" } 3 rfl)

theorem reach_sI : Reach sI :=
  Reach.step reach_sH (Step.appeal sH sI 3 1 "disagree" 4 rfl)

theorem reach_sJ : Reach sJ :=
  Reach.step reach_sI
    (Step.review_update sI sJ adminU 3 { review_result := some ReviewResult.approved } 5 rfl)

theorem reach_sK : Reach sK :=
  Reach.step reach_sJ
    (Step.review_update sJ sK adminU 3 { review_result := some ReviewResult.rejected } 6 rfl)

theorem reach_s4_base : Reach s4_base :=
  Reach.step reach_s_base (Step.add_user s_base { id := 4, role := UserRole.user })

theorem reach_s4A : Reach s4A :=
  Reach.step reach_s4_base
    (Step.accept s4_base s4A 3 { task_id := 1, submit_content := none } 0
      (okAccPayload (accept_task s4_base 3 { task_id := 1, submit_content := none } 0)) rfl)

theorem reach_s4B : Reach s4B :=
  Reach.step reach_s4A
    (Step.accept s4A s4B 4 { task_id := 1, submit_content := none } 1
      (okAccPayload (accept_task s4A 4 { task_id := 1, submit_content := none } 1)) rfl)

theorem reach_s4C : Reach s4C :=
  Reach.step reach_s4B
    (Step.review_update s4B s4C adminU 1 { review_result := some ReviewResult.approved } 2 rfl)

theorem get_first_admin_eq_of_users (s' s : St) (h : s'.users = s.users) :
    get_first_admin s' = get_first_admin s := by
  unfold get_first_admin
  rw [h]

theorem update_assignment_rewards (s : St) (i : Nat) (u : AssignmentUpdate) :
    (update_assignment s i u).rewards = s.rewards := rfl

theorem update_task_rewards (s : St) (i : Nat) (u : TaskUpdate) :
    (update_task s i u).rewards = s.rewards := rfl

theorem update_review_rewards (s : St) (i : Nat) (u : ReviewUpdate) :
    (update_review s i u).rewards = s.rewards := rfl

theorem create_review_rewards (s : St) (rc : ReviewCreate) (rid now : Nat) :
    (create_review s rc rid now).1.rewards = s.rewards := rfl

theorem apply_review_action_rewards (s : St) (a : Assignment) (t : Task)
    (ty : ReviewType) (nr : ReviewResult) (c : Option String) (old : ReviewResult)
    (now : Nat) :
    (apply_review_action s a t ty nr c old now).rewards = s.rewards ∨
    (get_reward_by_assignment_id s a.id = none ∧
      (apply_review_action s a t ty nr c old now).rewards =
        s.rewards ++ [{ id := s.next_reward_id, assignment_id := a.id,
                        amount := t.reward_amount, status := RewardStatus.pending }]) := by
  cases ty with
  | acceptance_review =>
    left
    unfold apply_review_action
    dsimp only
    (repeat' split) <;> rfl
  | submission_review =>
    unfold apply_review_action
    dsimp only
    split
    · split
      · left; rfl
      · rename_i hr
        right
        exact ⟨hr, rfl⟩
    · left
      (repeat' split) <;> rfl
  | appeal_review =>
    left
    unfold apply_review_action
    dsimp only
    (repeat' split) <;> rfl

theorem rewardsUnique_append (l : List Reward) (w : Reward)
    (hn : l.find? (fun r => r.assignment_id == w.assignment_id) = none)
    (hu : (l.map Reward.assignment_id).Nodup) :
    ((l ++ [w]).map Reward.assignment_id).Nodup := by
  rw [List.map_append]
  rw [List.nodup_append]
  refine ⟨hu, List.nodup_singleton _, ?_⟩
  intro x hx hx2
  simp only [List.map_cons, List.map_nil, List.mem_singleton] at hx2
  subst hx2
  obtain ⟨r, hr, hrid⟩ := List.mem_map.mp hx
  have hne := List.find?_eq_none.mp hn r hr
  simp [hrid] at hne

theorem rewardsUnique_apply_review_action (s : St) (a : Assignment) (t : Task)
    (ty : ReviewType) (nr : ReviewResult) (c : Option String) (old : ReviewResult)
    (now : Nat) (hu : rewardsUnique s) :
    rewardsUnique (apply_review_action s a t ty nr c old now) := by
  rcases apply_review_action_rewards s a t ty nr c old now with h | ⟨hn, h⟩
  · unfold rewardsUnique
    rw [h]
    exact hu
  · unfold rewardsUnique
    rw [h]
    exact rewardsUnique_append _ _ hn hu

theorem create_assignment_rewards (s : St) (ac : AssignmentCreate) (uid : Nat)
    (s1 : St) (a : Assignment) (h : create_assignment s ac uid = .ok (s1, a)) :
    s1.rewards = s.rewards := by
  unfold create_assignment at h
  split at h
  · exact absurd h (by simp)
  · split at h
    · exact absurd h (by simp)
    · split at h
      · exact absurd h (by simp)
      · split at h
        · exact absurd h (by simp)
        · simp only [Except.ok.injEq, Prod.mk.injEq] at h
          obtain ⟨h1, _⟩ := h
          subst h1
          rfl

theorem accept_task_rewards (s : St) (uid : Nat) (ac : AssignmentCreate) (now : Nat)
    (s' : St) (r : Option Assignment)
    (h : accept_task s uid ac now = .ok (s', r)) : s'.rewards = s.rewards := by
  unfold accept_task at h
  split at h
  · exact absurd h (by simp)
  · rename_i s1 created hok
    have h1 := create_assignment_rewards s ac uid s1 created hok
    split at h
    · simp only [Except.ok.injEq, Prod.mk.injEq] at h
      obtain ⟨h2, _⟩ := h
      subst h2
      rw [create_review_rewards]
      exact h1
    · simp only [Except.ok.injEq, Prod.mk.injEq] at h
      obtain ⟨h2, _⟩ := h
      subst h2
      exact h1

theorem submit_assignment_rewards (s : St) (uid aid : Nat) (c : Option String)
    (now : Nat) (s' : St) (h : submit_assignment s uid aid c now = .ok s') :
    s'.rewards = s.rewards := by
  unfold submit_assignment at h
  split at h
  · exact absurd h (by simp)
  · split at h
    · exact absurd h (by simp)
    · simp only [Except.ok.injEq] at h
      subst h
      split
      · rw [create_review_rewards, update_assignment_rewards]
      · rw [update_assignment_rewards]

theorem update_assignment_progress_rewards (s : St) (uid aid : Nat)
    (u : AssignmentUpdate) (s' : St)
    (h : update_assignment_progress s uid aid u = .ok s') :
    s'.rewards = s.rewards := by
  unfold update_assignment_progress at h
  split at h
  · exact absurd h (by simp)
  · split at h
    · exact absurd h (by simp)
    · simp only [Except.ok.injEq] at h
      subst h
      rw [update_assignment_rewards]

theorem appeal_assignment_rewards (s : St) (uid aid : Nat) (reason : String)
    (now : Nat) (s' : St) (h : appeal_assignment s uid aid reason now = .ok s') :
    s'.rewards = s.rewards := by
  unfold appeal_assignment at h
  split at h
  · exact absurd h (by simp)
  · split at h
    · exact absurd h (by simp)
    · split at h
      · exact absurd h (by simp)
      · simp only [Except.ok.injEq] at h
        subst h
        split
        · rw [create_review_rewards, update_assignment_rewards]
        · rw [update_assignment_rewards]

theorem redo_assignment_rewards (s : St) (uid aid : Nat) (s' : St)
    (h : redo_assignment s uid aid = .ok s') : s'.rewards = s.rewards := by
  unfold redo_assignment at h
  split at h
  · exact absurd h (by simp)
  · split at h
    · exact absurd h (by simp)
    · split at h
      · exact absurd h (by simp)
      · dsimp only at h
        split at h
        · split at h
          · simp only [Except.ok.injEq] at h
            subst h
            rw [update_task_rewards, update_assignment_rewards]
          · simp only [Except.ok.injEq] at h
            subst h
            rw [update_assignment_rewards]
        · simp only [Except.ok.injEq] at h
          subst h
          rw [update_assignment_rewards]

theorem submit_review_preserves_rewardsUnique (s : St) (u : User) (rc : ReviewCreate)
    (now : Nat) (s' : St) (h : submit_review s u rc now = .ok s')
    (hu : rewardsUnique s) : rewardsUnique s' := by
  unfold submit_review at h
  split at h
  · exact absurd h (by simp)
  · rename_i assignment ha
    split at h
    · exact absurd h (by simp)
    · rename_i task htk
      split at h
      · exact absurd h (by simp)
      · split at h
        · exact absurd h (by simp)
        · dsimp only at h
          rcases hpr : get_pending_review
              (apply_review_action s assignment task rc.review_type rc.review_result
                rc.review_comment ReviewResult.pending now)
              assignment.id rc.review_type with _ | pending
          · rw [hpr] at h
            simp only [Except.ok.injEq] at h
            subst h
            unfold rewardsUnique
            rw [create_review_rewards]
            exact rewardsUnique_apply_review_action s assignment task _ _ _ _ _ hu
          · rw [hpr] at h
            simp only [Except.ok.injEq] at h
            subst h
            unfold rewardsUnique
            rw [update_review_rewards]
            exact rewardsUnique_apply_review_action s assignment task _ _ _ _ _ hu

theorem update_review_detail_preserves_rewardsUnique (s : St) (u : User) (rid : Nat)
    (ru : ReviewUpdateIn) (now : Nat) (s' : St)
    (h : update_review_detail s u rid ru now = .ok s')
    (hu : rewardsUnique s) : rewardsUnique s' := by
  unfold update_review_detail at h
  split at h
  · exact absurd h (by simp)
  · rename_i db_review hr
    split at h
    · exact absurd h (by simp)
    · rename_i assignment ha
      split at h
      · exact absurd h (by simp)
      · rename_i task htk
        split at h
        · exact absurd h (by simp)
        · split at h
          all_goals
            dsimp only at h
            split at h
            · exact absurd h (by simp)
            · simp only [Except.ok.injEq] at h
              subst h
              unfold rewardsUnique
              rw [update_review_rewards]
              exact rewardsUnique_apply_review_action s assignment task _ _ _ _ _ hu

theorem step_preserves_rewardsUnique {s s' : St} (st : Step s s')
    (hu : rewardsUnique s) : rewardsUnique s' := by
  cases st with
  | add_task t => exact hu
  | add_user u => exact hu
  | accept x1 uid ac now r h =>
    unfold rewardsUnique
    rw [accept_task_rewards _ _ _ _ _ _ h]
    exact hu
  | submit x2 uid aid c now h =>
    unfold rewardsUnique
    rw [submit_assignment_rewards _ _ _ _ _ _ h]
    exact hu
  | progress x3 uid aid u h =>
    unfold rewardsUnique
    rw [update_assignment_progress_rewards _ _ _ _ _ h]
    exact hu
  | appeal x4 uid aid reason now h =>
    unfold rewardsUnique
    rw [appeal_assignment_rewards _ _ _ _ _ _ h]
    exact hu
  | redo x5 uid aid h =>
    unfold rewardsUnique
    rw [redo_assignment_rewards _ _ _ _ h]
    exact hu
  | review_submit x6 u rc now h =>
    exact submit_review_preserves_rewardsUnique _ _ _ _ _ h hu
  | review_update x7 u rid ru now h =>
    exact update_review_detail_preserves_rewardsUnique _ _ _ _ _ _ h hu

theorem get_review_update_assignment (s : St) (i : Nat) (u : AssignmentUpdate) (j : Nat) :
    get_review (update_assignment s i u) j = get_review s j := rfl

theorem get_review_update_task (s : St) (i : Nat) (u : TaskUpdate) (j : Nat) :
    get_review (update_task s i u) j = get_review s j := rfl

theorem get_assignment_update_task (s : St) (i : Nat) (u : TaskUpdate) (j : Nat) :
    get_assignment (update_task s i u) j = get_assignment s j := rfl

theorem get_assignment_update_review (s : St) (i : Nat) (u : ReviewUpdate) (j : Nat) :
    get_assignment (update_review s i u) j = get_assignment s j := rfl

theorem get_task_update_assignment (s : St) (i : Nat) (u : AssignmentUpdate) (j : Nat) :
    get_task (update_assignment s i u) j = get_task s j := rfl

theorem get_task_update_review (s : St) (i : Nat) (u : ReviewUpdate) (j : Nat) :
    get_task (update_review s i u) j = get_task s j := rfl

theorem apply_review_action_reviews (s : St) (a : Assignment) (t : Task)
    (ty : ReviewType) (nr : ReviewResult) (c : Option String) (old : ReviewResult)
    (now : Nat) :
    (apply_review_action s a t ty nr c old now).reviews = s.reviews := by
  cases ty with
  | acceptance_review =>
    unfold apply_review_action
    dsimp only
    (repeat' split) <;> rfl
  | submission_review =>
    unfold apply_review_action
    dsimp only
    (repeat' split) <;> rfl
  | appeal_review =>
    unfold apply_review_action
    dsimp only
    (repeat' split) <;> rfl

theorem get_review_congr (x s : St) (h : x.reviews = s.reviews) (j : Nat) :
    get_review x j = get_review s j := by
  unfold get_review
  rw [h]

theorem update_review_detail_ok (s : St) (u : User) (rid : Nat) (r : Review)
    (a : Assignment) (t : Task) (res : ReviewResult) (now : Nat)
    (hadmin : u.role = UserRole.admin)
    (hr : get_review s rid = some r)
    (ha : get_assignment s r.assignment_id = some a)
    (ht : get_task s a.task_id = some t)
    (hval : validate_review_preconditions r.review_type res a r.review_result = true) :
    update_review_detail s u rid { review_result := some res } now =
      .ok (update_review
        (apply_review_action s a t r.review_type res r.review_comment
          r.review_result now)
        r.id { review_result := some res, review_comment := some r.review_comment }) := by
  unfold update_review_detail
  rw [hr]
  try dsimp only
  rw [ha]
  try dsimp only
  rw [ht]
  try dsimp only
  rw [if_neg (by simp [can_review, hadmin])]
  try dsimp only
  rw [if_neg (by simp [hval])]
  rfl

/-- C1 (amended): the pending-review idempotency anchor holds for Accept and
Appeal: a second Accept for a (task_id, user_id) pair that already has an
assignment fails with an error, and an Appeal against an assignment already
in appealing status fails with an error, so neither creates a duplicate
pending review; Submit, however, violates the invariant (see
C1_counterexample). -/
theorem C1_second_accept_appeal_rejected :
    (∀ s uid ac now a, find_assignment_pair s ac.task_id uid = some a →
      ∃ e, accept_task s uid ac now = .error e) ∧
    (∀ s uid aid reason now a, get_assignment s aid = some a →
      a.status = AssignmentStatus.appealing →
      ∃ e, appeal_assignment s uid aid reason now = .error e) := by
  constructor
  · intro s uid ac now a hdup
    unfold accept_task create_assignment
    cases ht : get_task s ac.task_id with
    | none => exact ⟨AcceptError.taskNotFound, rfl⟩
    | some t =>
      by_cases hs : t.status = TaskStatus.open_
      · rw [hdup]
        simp [hs]
      · refine ⟨AcceptError.taskNotAvailable, ?_⟩
        simp [hs]
  · intro s uid aid reason now a ha hst
    unfold appeal_assignment
    rw [ha]
    by_cases hu : a.user_id = uid
    · refine ⟨ApiErr.invalidState, ?_⟩
      simp [hu, hst]
    · refine ⟨ApiErr.permissionDenied, ?_⟩
      simp [hu]

/-- Witness for C1: concrete second Accept and second Appeal both fail. -/
theorem C1_second_accept_appeal_rejected_witness :
    (∃ e, accept_task sA 3 { task_id := 1, submit_content := none } 7 = .error e) ∧
    (∃ e, appeal_assignment sI 3 1 "again" 7 = .error e) :=
  ⟨C1_second_accept_appeal_rejected.1 sA 3 { task_id := 1, submit_content := none } 7 _ rfl,
   C1_second_accept_appeal_rejected.2 sI 3 1 "again" 7 _ rfl rfl⟩

/-- C1 counterexample: on the reachable trace accept-submit-submit, the second
Submit succeeds and leaves two pending submission_review rows for assignment 1,
refuting the at-most-one-pending-review invariant. -/
theorem C1_counterexample :
    Reach sC ∧
    submit_assignment sB 3 1 (some "v2") 2 = .ok sC ∧
    countPending sC 1 ReviewType.submission_review = 2 :=
  ⟨reach_sC, rfl, rfl⟩

/-- C2: on the reachable scenario-B trace (submission rejected, worker appeals,
task in_progress), approving the appeal sets Task to completed and Assignment
to task_completed as the claim says, but performs no Reward mutation at all:
the rewards table stays empty, contradicting the claimed create-or-flip of the
Reward. The reward logic exists only in the unreachable duplicate appeal
branch of apply_review_action. -/
theorem C2_appeal_approval_skips_reward :
    Reach sI ∧
    (get_assignment sI 1).map Assignment.status = some AssignmentStatus.appealing ∧
    (get_task sI 1).map Task.status = some TaskStatus.in_progress ∧
    sI.rewards = [] ∧
    update_review_detail sI adminU 3
      { review_result := some ReviewResult.approved } 5 = .ok sJ ∧
    (get_task sJ 1).map Task.status = some TaskStatus.completed ∧
    (get_assignment sJ 1).map Assignment.status = some AssignmentStatus.task_completed ∧
    sJ.rewards = [] :=
  ⟨reach_sI, rfl, rfl, rfl, rfl, rfl, rfl, rfl⟩

/-- C3 (amended): Submit succeeds iff the assignment exists and belongs to the
caller; a missing assignment is rejected with 404 and a foreign assignment
with 403, leaving the state unchanged, but no precondition on
assignment.status == task_receive is enforced anywhere. -/
theorem C3_submit_characterization (s : St) (uid aid : Nat) (c : Option String)
    (now : Nat) :
    ((∃ s', submit_assignment s uid aid c now = .ok s') ↔
      ∃ a, get_assignment s aid = some a ∧ a.user_id = uid) ∧
    (get_assignment s aid = none →
      submit_assignment s uid aid c now = .error ApiErr.notFound) ∧
    (∀ a, get_assignment s aid = some a → a.user_id ≠ uid →
      submit_assignment s uid aid c now = .error ApiErr.permissionDenied) := by
  refine ⟨⟨?_, ?_⟩, ?_, ?_⟩
  · rintro ⟨s', h⟩
    unfold submit_assignment at h
    cases ha : get_assignment s aid with
    | none => rw [ha] at h; exact absurd h (by simp)
    | some a =>
      rw [ha] at h
      by_cases hu : a.user_id = uid
      · exact ⟨a, rfl, hu⟩
      · simp [hu] at h
  · rintro ⟨a, ha, hu⟩
    unfold submit_assignment
    rw [ha]
    simp [hu]
  · intro ha
    unfold submit_assignment
    rw [ha]
  · intro a ha hu
    unfold submit_assignment
    rw [ha]
    simp [hu]

/-- Witness for C3: concrete successful Submit by the owner and concrete 403
for a non-owner. -/
theorem C3_submit_characterization_witness :
    (∃ s', submit_assignment sA 3 1 (some "v1") 1 = .ok s') ∧
    submit_assignment sA 9 1 (some "x") 0 = .error ApiErr.permissionDenied :=
  ⟨(C3_submit_characterization sA 3 1 (some "v1") 1).1.mpr ⟨_, rfl, rfl⟩,
   (C3_submit_characterization sA 9 1 (some "x") 0).2.2 _ rfl (by decide)⟩

/-- C3 counterexample: on a reachable state whose assignment is still
task_pending (not task_receive), Submit succeeds and moves the assignment to
assignment_submission_pending, refuting the claimed status precondition. -/
theorem C3_counterexample :
    Reach sA ∧
    (get_assignment sA 1).map Assignment.status = some AssignmentStatus.task_pending ∧
    submit_assignment sA 3 1 (some "v1") 1 = .ok sB ∧
    (get_assignment sB 1).map Assignment.status =
      some AssignmentStatus.assignment_submission_pending :=
  ⟨reach_sA, rfl, rfl, rfl⟩

/-- C4: after two workers accept the same task (each with a pending
acceptance_review) and the first review is approved, the other worker's
assignment is auto-rejected, but their pending acceptance_review row keeps
review_result = pending and its original comment: no system-comment rejection
of other pending reviews happens (reject_other_pending_reviews is never
called). -/
theorem C4_other_pending_reviews_not_rejected :
    Reach s4C ∧
    countPending s4B 1 ReviewType.acceptance_review = 1 ∧
    countPending s4B 2 ReviewType.acceptance_review = 1 ∧
    update_review_detail s4B adminU 1
      { review_result := some ReviewResult.approved } 2 = .ok s4C ∧
    (get_review s4C 2).map Review.review_result = some ReviewResult.pending ∧
    (get_review s4C 2).map Review.review_comment = some (some "自动生成接取任务待审核记录") ∧
    (get_assignment s4C 2).map Assignment.status =
      some AssignmentStatus.task_receivement_rejected :=
  ⟨reach_s4C, rfl, rfl, rfl, rfl, rfl, rfl⟩

/-- C5 (amended): an appeal approval followed by the appeal reversal always
restores the pre-appeal Task status and never touches Reward rows; the
Assignment status is restored exactly in the completed-task path (it ends
task_completed), but in the in_progress path (pre-appeal status task_reject)
the assignment ends in task_receive instead of task_reject. -/
theorem C5_appeal_roundtrip (s : St) (u : User) (rid : Nat) (r : Review)
    (a : Assignment) (t : Task) (now1 now2 : Nat)
    (hadmin : u.role = UserRole.admin)
    (hr : get_review s rid = some r)
    (hty : r.review_type = ReviewType.appeal_review)
    (hpend : r.review_result = ReviewResult.pending)
    (ha : get_assignment s r.assignment_id = some a)
    (hst : a.status = AssignmentStatus.appealing)
    (ht : get_task s a.task_id = some t) :
    ∃ s1 s2,
      update_review_detail s u rid
        { review_result := some ReviewResult.approved } now1 = .ok s1 ∧
      update_review_detail s1 u rid
        { review_result := some ReviewResult.rejected } now2 = .ok s2 ∧
      s2.rewards = s.rewards ∧
      (t.status = TaskStatus.completed →
        (get_task s2 a.task_id).map Task.status = some TaskStatus.completed ∧
        (get_assignment s2 r.assignment_id).map Assignment.status =
          some AssignmentStatus.task_completed) ∧
      (t.status = TaskStatus.in_progress →
        (get_task s2 a.task_id).map Task.status = some TaskStatus.in_progress ∧
        (get_assignment s2 r.assignment_id).map Assignment.status =
          some AssignmentStatus.task_receive) := by
  have hval1 : validate_review_preconditions r.review_type ReviewResult.approved a
      r.review_result = true := by
    rw [hty]
    simp [validate_review_preconditions, hst]
  have h1 := update_review_detail_ok s u rid r a t ReviewResult.approved now1
    hadmin hr ha ht hval1
  rw [hty, hpend] at h1
  cases hts : t.status with
  | completed =>
    have hA : apply_review_action s a t ReviewType.appeal_review ReviewResult.approved
        r.review_comment ReviewResult.pending now1 =
        update_assignment (update_task s t.id { status := some TaskStatus.in_progress })
          a.id { status := some AssignmentStatus.task_receive } := by
      unfold apply_review_action
      dsimp only
      rw [hts]
      rfl
    rw [hA] at h1
    set S1 : St := update_review
        (update_assignment (update_task s t.id { status := some TaskStatus.in_progress })
          a.id { status := some AssignmentStatus.task_receive })
        r.id { review_result := some ReviewResult.approved,
               review_comment := some r.review_comment } with hS1
    have hS1rew : S1.rewards = s.rewards := by rw [hS1]; rfl
    have hr1 : get_review S1 rid = some { r with review_result := ReviewResult.approved } := by
      rw [hS1, get_review_update_review, get_review_update_assignment,
        get_review_update_task, hr]
      simp [applyReviewUpdate]
    have ha1 : get_assignment S1 r.assignment_id =
        some { a with status := AssignmentStatus.task_receive } := by
      rw [hS1, get_assignment_update_review, get_assignment_update_assignment,
        get_assignment_update_task, ha]
      simp [applyAssignmentUpdate]
    have ht1 : get_task S1 a.task_id = some { t with status := TaskStatus.in_progress } := by
      rw [hS1, get_task_update_review, get_task_update_assignment,
        get_task_update_task, ht]
      simp
    have hval2 : validate_review_preconditions r.review_type ReviewResult.rejected
        { a with status := AssignmentStatus.task_receive } ReviewResult.approved = true := by
      rw [hty]
      simp [validate_review_preconditions]
    have h2 := update_review_detail_ok S1 u rid
      { r with review_result := ReviewResult.approved }
      { a with status := AssignmentStatus.task_receive }
      { t with status := TaskStatus.in_progress }
      ReviewResult.rejected now2 hadmin hr1 ha1 ht1 hval2
    dsimp only at h2
    rw [hty] at h2
    have hA2 : apply_review_action S1 { a with status := AssignmentStatus.task_receive }
        { t with status := TaskStatus.in_progress } ReviewType.appeal_review
        ReviewResult.rejected r.review_comment ReviewResult.approved now2 =
        update_assignment (update_task S1 t.id { status := some TaskStatus.completed })
          a.id { status := some AssignmentStatus.task_completed } := by
      unfold apply_review_action
      dsimp only
      rfl
    rw [hA2] at h2
    refine ⟨S1, _, h1, h2, hS1rew, fun _ => ⟨?_, ?_⟩, fun hc => absurd hc (by decide)⟩
    · rw [get_task_update_review, get_task_update_assignment, get_task_update_task, ht1]
      simp
    · rw [get_assignment_update_review, get_assignment_update_assignment,
        get_assignment_update_task, ha1]
      simp [applyAssignmentUpdate]
  | in_progress =>
    have hA : apply_review_action s a t ReviewType.appeal_review ReviewResult.approved
        r.review_comment ReviewResult.pending now1 =
        update_assignment (update_task s t.id { status := some TaskStatus.completed })
          a.id { status := some AssignmentStatus.task_completed } := by
      unfold apply_review_action
      dsimp only
      rw [hts]
      rfl
    rw [hA] at h1
    set S1 : St := update_review
        (update_assignment (update_task s t.id { status := some TaskStatus.completed })
          a.id { status := some AssignmentStatus.task_completed })
        r.id { review_result := some ReviewResult.approved,
               review_comment := some r.review_comment } with hS1
    have hS1rew : S1.rewards = s.rewards := by rw [hS1]; rfl
    have hr1 : get_review S1 rid = some { r with review_result := ReviewResult.approved } := by
      rw [hS1, get_review_update_review, get_review_update_assignment,
        get_review_update_task, hr]
      simp [applyReviewUpdate]
    have ha1 : get_assignment S1 r.assignment_id =
        some { a with status := AssignmentStatus.task_completed } := by
      rw [hS1, get_assignment_update_review, get_assignment_update_assignment,
        get_assignment_update_task, ha]
      simp [applyAssignmentUpdate]
    have ht1 : get_task S1 a.task_id = some { t with status := TaskStatus.completed } := by
      rw [hS1, get_task_update_review, get_task_update_assignment,
        get_task_update_task, ht]
      simp
    have hval2 : validate_review_preconditions r.review_type ReviewResult.rejected
        { a with status := AssignmentStatus.task_completed } ReviewResult.approved = true := by
      rw [hty]
      simp [validate_review_preconditions]
    have h2 := update_review_detail_ok S1 u rid
      { r with review_result := ReviewResult.approved }
      { a with status := AssignmentStatus.task_completed }
      { t with status := TaskStatus.completed }
      ReviewResult.rejected now2 hadmin hr1 ha1 ht1 hval2
    dsimp only at h2
    rw [hty] at h2
    have hA2 : apply_review_action S1 { a with status := AssignmentStatus.task_completed }
        { t with status := TaskStatus.completed } ReviewType.appeal_review
        ReviewResult.rejected r.review_comment ReviewResult.approved now2 =
        update_assignment (update_task S1 t.id { status := some TaskStatus.in_progress })
          a.id { status := some AssignmentStatus.task_receive } := by
      unfold apply_review_action
      dsimp only
      rfl
    rw [hA2] at h2
    refine ⟨S1, _, h1, h2, hS1rew, fun hc => absurd hc (by decide), fun _ => ⟨?_, ?_⟩⟩
    · rw [get_task_update_review, get_task_update_assignment, get_task_update_task, ht1]
      simp
    · rw [get_assignment_update_review, get_assignment_update_assignment,
        get_assignment_update_task, ha1]
      simp [applyAssignmentUpdate]
  | open_ =>
    have hA : apply_review_action s a t ReviewType.appeal_review ReviewResult.approved
        r.review_comment ReviewResult.pending now1 = s := by
      unfold apply_review_action
      dsimp only
      rw [hts]
      rfl
    rw [hA] at h1
    set S1 : St := update_review s r.id
        { review_result := some ReviewResult.approved,
          review_comment := some r.review_comment } with hS1
    have hS1rew : S1.rewards = s.rewards := by rw [hS1]; rfl
    have hr1 : get_review S1 rid = some { r with review_result := ReviewResult.approved } := by
      rw [hS1, get_review_update_review, hr]
      simp [applyReviewUpdate]
    have ha1 : get_assignment S1 r.assignment_id = some a := by
      rw [hS1, get_assignment_update_review]
      exact ha
    have ht1 : get_task S1 a.task_id = some t := by
      rw [hS1, get_task_update_review]
      exact ht
    have hval2 : validate_review_preconditions r.review_type ReviewResult.rejected a
        ReviewResult.approved = true := by
      rw [hty]
      simp [validate_review_preconditions]
    have h2 := update_review_detail_ok S1 u rid
      { r with review_result := ReviewResult.approved } a t
      ReviewResult.rejected now2 hadmin hr1 ha1 ht1 hval2
    dsimp only at h2
    rw [hty] at h2
    have hA2 : apply_review_action S1 a t ReviewType.appeal_review
        ReviewResult.rejected r.review_comment ReviewResult.approved now2 = S1 := by
      unfold apply_review_action
      dsimp only
      rw [hts]
      rfl
    rw [hA2] at h2
    exact ⟨S1, _, h1, h2, hS1rew, fun hc => absurd hc (by decide),
      fun hc => absurd hc (by decide)⟩
  | pending_review =>
    have hA : apply_review_action s a t ReviewType.appeal_review ReviewResult.approved
        r.review_comment ReviewResult.pending now1 = s := by
      unfold apply_review_action
      dsimp only
      rw [hts]
      rfl
    rw [hA] at h1
    set S1 : St := update_review s r.id
        { review_result := some ReviewResult.approved,
          review_comment := some r.review_comment } with hS1
    have hS1rew : S1.rewards = s.rewards := by rw [hS1]; rfl
    have hr1 : get_review S1 rid = some { r with review_result := ReviewResult.approved } := by
      rw [hS1, get_review_update_review, hr]
      simp [applyReviewUpdate]
    have ha1 : get_assignment S1 r.assignment_id = some a := by
      rw [hS1, get_assignment_update_review]
      exact ha
    have ht1 : get_task S1 a.task_id = some t := by
      rw [hS1, get_task_update_review]
      exact ht
    have hval2 : validate_review_preconditions r.review_type ReviewResult.rejected a
        ReviewResult.approved = true := by
      rw [hty]
      simp [validate_review_preconditions]
    have h2 := update_review_detail_ok S1 u rid
      { r with review_result := ReviewResult.approved } a t
      ReviewResult.rejected now2 hadmin hr1 ha1 ht1 hval2
    dsimp only at h2
    rw [hty] at h2
    have hA2 : apply_review_action S1 a t ReviewType.appeal_review
        ReviewResult.rejected r.review_comment ReviewResult.approved now2 = S1 := by
      unfold apply_review_action
      dsimp only
      rw [hts]
      rfl
    rw [hA2] at h2
    exact ⟨S1, _, h1, h2, hS1rew, fun hc => absurd hc (by decide),
      fun hc => absurd hc (by decide)⟩
  | closed =>
    have hA : apply_review_action s a t ReviewType.appeal_review ReviewResult.approved
        r.review_comment ReviewResult.pending now1 = s := by
      unfold apply_review_action
      dsimp only
      rw [hts]
      rfl
    rw [hA] at h1
    set S1 : St := update_review s r.id
        { review_result := some ReviewResult.approved,
          review_comment := some r.review_comment } with hS1
    have hS1rew : S1.rewards = s.rewards := by rw [hS1]; rfl
    have hr1 : get_review S1 rid = some { r with review_result := ReviewResult.approved } := by
      rw [hS1, get_review_update_review, hr]
      simp [applyReviewUpdate]
    have ha1 : get_assignment S1 r.assignment_id = some a := by
      rw [hS1, get_assignment_update_review]
      exact ha
    have ht1 : get_task S1 a.task_id = some t := by
      rw [hS1, get_task_update_review]
      exact ht
    have hval2 : validate_review_preconditions r.review_type ReviewResult.rejected a
        ReviewResult.approved = true := by
      rw [hty]
      simp [validate_review_preconditions]
    have h2 := update_review_detail_ok S1 u rid
      { r with review_result := ReviewResult.approved } a t
      ReviewResult.rejected now2 hadmin hr1 ha1 ht1 hval2
    dsimp only at h2
    rw [hty] at h2
    have hA2 : apply_review_action S1 a t ReviewType.appeal_review
        ReviewResult.rejected r.review_comment ReviewResult.approved now2 = S1 := by
      unfold apply_review_action
      dsimp only
      rw [hts]
      rfl
    rw [hA2] at h2
    exact ⟨S1, _, h1, h2, hS1rew, fun hc => absurd hc (by decide),
      fun hc => absurd hc (by decide)⟩

/-- Witness for C5: the round trip evaluated on the concrete scenario-B
trace. -/
theorem C5_appeal_roundtrip_witness :
    ∃ s1 s2,
      update_review_detail sI adminU 3
        { review_result := some ReviewResult.approved } 5 = .ok s1 ∧
      update_review_detail s1 adminU 3
        { review_result := some ReviewResult.rejected } 6 = .ok s2 ∧
      s2.rewards = sI.rewards := by
  obtain ⟨s1, s2, h1, h2, h3, _, _⟩ :=
    C5_appeal_roundtrip sI adminU 3 _ _ _ 5 6 rfl rfl rfl rfl rfl rfl rfl
  exact ⟨s1, s2, h1, h2, h3⟩

/-- C5 counterexample: on the reachable scenario-B trace the pre-appeal
assignment status is task_reject, yet after appeal approval plus reversal the
assignment ends in task_receive, so the exact pre-appeal Assignment status is
not restored. -/
theorem C5_counterexample :
    Reach sK ∧
    (get_assignment sH 1).map Assignment.status = some AssignmentStatus.task_reject ∧
    (get_task sH 1).map Task.status = some TaskStatus.in_progress ∧
    appeal_assignment sH 3 1 "disagree" 4 = .ok sI ∧
    update_review_detail sI adminU 3
      { review_result := some ReviewResult.approved } 5 = .ok sJ ∧
    update_review_detail sJ adminU 3
      { review_result := some ReviewResult.rejected } 6 = .ok sK ∧
    (get_task sK 1).map Task.status = some TaskStatus.in_progress ∧
    (get_assignment sK 1).map Assignment.status = some AssignmentStatus.task_receive :=
  ⟨reach_sK, rfl, rfl, rfl, rfl, rfl, rfl, rfl⟩

/-- C6: Accept succeeds iff the task exists with status open, no prior
assignment exists for the (task_id, user_id) pair, and the caller is not the
publisher; and every failure carries the claimed code: 404 exactly when the
task is missing, 400 only when the task exists but is not open, and 409 only
when the task is open and the failure is a duplicate accept or self-accept. -/
theorem C6_accept_characterization (s : St) (uid : Nat) (ac : AssignmentCreate)
    (now : Nat) :
    ((∃ r, accept_task s uid ac now = .ok r) ↔
      ∃ t, get_task s ac.task_id = some t ∧ t.status = TaskStatus.open_ ∧
        find_assignment_pair s ac.task_id uid = none ∧ t.publisher_id ≠ uid) ∧
    (∀ e, accept_task s uid ac now = .error e →
      (e.http_code = 404 ∧ get_task s ac.task_id = none) ∨
      (e.http_code = 400 ∧
        ∃ t, get_task s ac.task_id = some t ∧ t.status ≠ TaskStatus.open_) ∨
      (e.http_code = 409 ∧
        ∃ t, get_task s ac.task_id = some t ∧ t.status = TaskStatus.open_ ∧
          (find_assignment_pair s ac.task_id uid ≠ none ∨ t.publisher_id = uid))) := by
  constructor
  · constructor
    · rintro ⟨r, h⟩
      unfold accept_task create_assignment at h
      cases ht : get_task s ac.task_id with
      | none => rw [ht] at h; exact absurd h (by simp)
      | some t =>
        rw [ht] at h
        by_cases hs : t.status = TaskStatus.open_
        · cases hdup : find_assignment_pair s ac.task_id uid with
          | some a => rw [hdup] at h; simp [hs] at h
          | none =>
            rw [hdup] at h
            by_cases hself : t.publisher_id = uid
            · simp [hs, hself] at h
            · exact ⟨t, rfl, hs, rfl, hself⟩
        · simp [hs] at h
    · rintro ⟨t, ht, hs, hdup, hself⟩
      unfold accept_task create_assignment
      rw [ht, hdup]
      simp only [hs, bne_self_eq_false, Bool.false_eq_true, if_false, ite_false]
      rw [if_neg (by simp [hself])]
      dsimp only
      cases hA : get_first_admin
        ({ s with
            assignments := s.assignments ++
              [{ id := s.next_assignment_id, task_id := ac.task_id, user_id := uid,
                 submit_content := ac.submit_content, submit_time := none,
                 status := AssignmentStatus.task_pending, review_time := none }]
            next_assignment_id := s.next_assignment_id + 1 }) with
      | none => exact ⟨_, rfl⟩
      | some adm => exact ⟨_, rfl⟩
  · intro e h
    unfold accept_task create_assignment at h
    cases ht : get_task s ac.task_id with
    | none =>
      rw [ht] at h
      simp only [Except.error.injEq] at h
      subst h
      exact Or.inl ⟨rfl, rfl⟩
    | some t =>
      rw [ht] at h
      by_cases hs : t.status = TaskStatus.open_
      · cases hdup : find_assignment_pair s ac.task_id uid with
        | some a =>
          rw [hdup] at h
          simp only [hs, bne_self_eq_false, Bool.false_eq_true, if_false, ite_false,
            Except.error.injEq] at h
          subst h
          exact Or.inr (Or.inr ⟨rfl, t, rfl, hs, Or.inl (by simp)⟩)
        | none =>
          rw [hdup] at h
          by_cases hself : t.publisher_id = uid
          · simp only [hs, bne_self_eq_false, Bool.false_eq_true, if_false, ite_false] at h
            rw [if_pos (by simp [hself])] at h
            simp only [Except.error.injEq] at h
            subst h
            exact Or.inr (Or.inr ⟨rfl, t, rfl, hs, Or.inr hself⟩)
          · simp only [hs, bne_self_eq_false, Bool.false_eq_true, if_false, ite_false] at h
            rw [if_neg (by simp [hself])] at h
            dsimp only at h
            cases hA : get_first_admin
              ({ s with
                  assignments := s.assignments ++
                    [{ id := s.next_assignment_id, task_id := ac.task_id, user_id := uid,
                       submit_content := ac.submit_content, submit_time := none,
                       status := AssignmentStatus.task_pending, review_time := none }]
                  next_assignment_id := s.next_assignment_id + 1 }) with
            | none => rw [hA] at h; exact absurd h (by simp)
            | some adm => rw [hA] at h; exact absurd h (by simp)
      · simp only [if_pos (by simp [hs] : (t.status != TaskStatus.open_) = true),
          Except.error.injEq] at h
        subst h
        exact Or.inr (Or.inl ⟨rfl, t, rfl, hs⟩)

/-- Witness for C6: concrete successful Accept and the 409 self-accept
failure. -/
theorem C6_accept_characterization_witness :
    (∃ r, accept_task s_base 3 { task_id := 1, submit_content := none } 0 = .ok r) ∧
    (AcceptError.selfAccept.http_code = 404 ∧ get_task s_base 1 = none ∨
     AcceptError.selfAccept.http_code = 400 ∧
       (∃ t, get_task s_base 1 = some t ∧ t.status ≠ TaskStatus.open_) ∨
     AcceptError.selfAccept.http_code = 409 ∧
       (∃ t, get_task s_base 1 = some t ∧ t.status = TaskStatus.open_ ∧
         (find_assignment_pair s_base 1 2 ≠ none ∨ t.publisher_id = 2))) :=
  ⟨(C6_accept_characterization s_base 3 { task_id := 1, submit_content := none } 0).1.mpr
      ⟨_, rfl, rfl, rfl, by decide⟩,
   (C6_accept_characterization s_base 2 { task_id := 1, submit_content := none } 0).2
      AcceptError.selfAccept rfl⟩

/-- C7: in every state reachable by the workflow operations, reward
assignment_ids are pairwise distinct (at most one Reward per assignment), and
re-running the submission-approval action when a Reward already exists for the
assignment leaves the rewards table unchanged. -/
theorem C7_reward_unique :
    (∀ s, Reach s → rewardsUnique s) ∧
    (∀ (s : St) (a : Assignment) (t : Task) (c : Option String)
        (old : ReviewResult) (now : Nat) (w : Reward),
      get_reward_by_assignment_id s a.id = some w →
      (apply_review_action s a t ReviewType.submission_review ReviewResult.approved
        c old now).rewards = s.rewards) := by
  constructor
  · intro s h
    induction h with
    | init => exact List.nodup_nil
    | step h1 h2 ih => exact step_preserves_rewardsUnique h2 ih
  · intro s a t c old now w h
    unfold apply_review_action
    dsimp only
    split
    · split
      · rfl
      · rename_i hnone
        simp only [get_reward_by_assignment_id, update_task_rewards,
          update_assignment_rewards] at hnone
        unfold get_reward_by_assignment_id at h
        rw [h] at hnone
        exact absurd hnone (by simp)
    · rename_i hfalse
      exact absurd rfl hfalse

/-- Witness for C7: the invariant at the initial state and the no-op
re-approval on a concrete state that already has a reward. -/
theorem C7_reward_unique_witness :
    rewardsUnique init0 ∧
    (apply_review_action sReward aW
      { id := 1, publisher_id := 2, reward_amount := 100, status := TaskStatus.completed }
      ReviewType.submission_review ReviewResult.approved none ReviewResult.pending
      9).rewards = sReward.rewards :=
  ⟨C7_reward_unique.1 init0 Reach.init,
   C7_reward_unique.2 sReward aW
     { id := 1, publisher_id := 2, reward_amount := 100, status := TaskStatus.completed }
     none ReviewResult.pending 9 _ rfl⟩

/-- C8: the AssignmentStatus enum literally declared in
app/models/assignment.py is NOT the claimed seven-value workflow set: the
workflow statuses task_receive, assignment_submission_pending and
task_receivement_rejected are not members of the declared enum, nor is the
pending_review default referenced by the TaskAssignment.status column, while
the workflow layer uses exactly the claimed seven values. -/
theorem C8_model_enum_divergence :
    modelAssignmentStatusValues ≠
      ["task_pending", "task_receive", "task_receivement_rejected",
       "assignment_submission_pending", "task_completed", "task_reject", "appealing"] ∧
    [AssignmentStatus.task_pending, AssignmentStatus.task_receive,
      AssignmentStatus.task_receivement_rejected,
      AssignmentStatus.assignment_submission_pending, AssignmentStatus.task_completed,
      AssignmentStatus.task_reject, AssignmentStatus.appealing].map AssignmentStatus.value =
      ["task_pending", "task_receive", "task_receivement_rejected",
       "assignment_submission_pending", "task_completed", "task_reject", "appealing"] ∧
    AssignmentStatus.value AssignmentStatus.task_receive ∉ modelAssignmentStatusValues ∧
    AssignmentStatus.value AssignmentStatus.assignment_submission_pending ∉
      modelAssignmentStatusValues ∧
    AssignmentStatus.value AssignmentStatus.task_receivement_rejected ∉
      modelAssignmentStatusValues ∧
    "pending_review" ∉ modelAssignmentStatusValues :=
  ⟨by decide, rfl, by decide, by decide, by decide, by decide⟩

/-- C9 (amended): besides Submit/Decide/Appeal/Redo, the
update_assignment_progress endpoint lets the owning user set the assignment
to any status directly, with ownership as the only guard. -/
theorem C9_progress_sets_any_status (s : St) (uid aid : Nat)
    (st : AssignmentStatus) (a : Assignment)
    (ha : get_assignment s aid = some a) (hu : a.user_id = uid) :
    ∃ s', update_assignment_progress s uid aid { status := some st } = .ok s' ∧
      (get_assignment s' aid).map Assignment.status = some st := by
  have hid : a.id = aid := by simpa using List.find?_some ha
  unfold update_assignment_progress
  rw [ha]
  simp only [hu, bne_self_eq_false, Bool.false_eq_true, if_false, ite_false]
  refine ⟨_, rfl, ?_⟩
  rw [get_assignment_update_assignment, ha]
  simp [hid, applyAssignmentUpdate]

/-- Witness for C9: the worker sets a concrete assignment to appealing via
the progress endpoint. -/
theorem C9_progress_sets_any_status_witness :
    ∃ s', update_assignment_progress sA 3 1
        { status := some AssignmentStatus.appealing } = .ok s' ∧
      (get_assignment sA 1).map Assignment.status ≠ some AssignmentStatus.appealing ∧
      (get_assignment s' 1).map Assignment.status = some AssignmentStatus.appealing := by
  obtain ⟨s', h1, h2⟩ :=
    C9_progress_sets_any_status sA 3 1 AssignmentStatus.appealing _ rfl rfl
  exact ⟨s', h1, by decide, h2⟩

/-- C9 counterexample: on a reachable state the worker moves their own
assignment from task_pending straight to task_completed through the progress
endpoint, a transition no WorkflowEngine operation performs. -/
theorem C9_counterexample :
    Reach sD ∧
    (get_assignment sA 1).map Assignment.status = some AssignmentStatus.task_pending ∧
    update_assignment_progress sA 3 1
      { status := some AssignmentStatus.task_completed } = .ok sD ∧
    (get_assignment sD 1).map Assignment.status = some AssignmentStatus.task_completed :=
  ⟨reach_sD, rfl, rfl, rfl⟩

/-- C10: when Accept's preconditions hold, the assignment row is always
created with status task_pending, but the pending acceptance_review and the
response snapshot exist only when an admin user exists; with no admin the
reviews table is unchanged and the endpoint returns no body. -/
theorem C10_accept_admin_dependence (s : St) (uid : Nat) (ac : AssignmentCreate)
    (now : Nat) (t : Task)
    (ht : get_task s ac.task_id = some t) (hopen : t.status = TaskStatus.open_)
    (hdup : find_assignment_pair s ac.task_id uid = none)
    (hself : t.publisher_id ≠ uid) :
    (get_first_admin s = none →
      accept_task s uid ac now =
        .ok ({ s with
                assignments := s.assignments ++
                  [{ id := s.next_assignment_id, task_id := ac.task_id, user_id := uid,
                     submit_content := ac.submit_content, submit_time := none,
                     status := AssignmentStatus.task_pending, review_time := none }]
                next_assignment_id := s.next_assignment_id + 1 }, none)) ∧
    (∀ adm, get_first_admin s = some adm →
      accept_task s uid ac now =
        .ok ({ s with
                assignments := s.assignments ++
                  [{ id := s.next_assignment_id, task_id := ac.task_id, user_id := uid,
                     submit_content := ac.submit_content, submit_time := none,
                     status := AssignmentStatus.task_pending, review_time := none }]
                next_assignment_id := s.next_assignment_id + 1
                reviews := s.reviews ++
                  [{ id := s.next_review_id, assignment_id := s.next_assignment_id,
                     reviewer_id := uid, review_type := ReviewType.acceptance_review,
                     review_result := ReviewResult.pending,
                     review_comment := some "自动生成接取任务待审核记录",
                     review_time := now }]
                next_review_id := s.next_review_id + 1 },
             some { id := s.next_assignment_id, task_id := ac.task_id, user_id := uid,
                    submit_content := ac.submit_content, submit_time := none,
                    status := AssignmentStatus.task_pending, review_time := none })) := by
  constructor
  · intro hadm
    unfold accept_task create_assignment
    rw [ht, hdup]
    simp only [hopen, bne_self_eq_false, Bool.false_eq_true, if_false, ite_false]
    rw [if_neg (by simp [hself])]
    dsimp only
    rw [get_first_admin_eq_of_users
      ({ s with
          assignments := s.assignments ++
            [{ id := s.next_assignment_id, task_id := ac.task_id, user_id := uid,
               submit_content := ac.submit_content, submit_time := none,
               status := AssignmentStatus.task_pending, review_time := none }]
          next_assignment_id := s.next_assignment_id + 1 }) s rfl, hadm]
  · intro adm hadm
    unfold accept_task create_assignment
    rw [ht, hdup]
    simp only [hopen, bne_self_eq_false, Bool.false_eq_true, if_false, ite_false]
    rw [if_neg (by simp [hself])]
    dsimp only
    rw [get_first_admin_eq_of_users
      ({ s with
          assignments := s.assignments ++
            [{ id := s.next_assignment_id, task_id := ac.task_id, user_id := uid,
               submit_content := ac.submit_content, submit_time := none,
               status := AssignmentStatus.task_pending, review_time := none }]
          next_assignment_id := s.next_assignment_id + 1 }) s rfl, hadm]
    rfl

/-- Witness for C10: Accept evaluated with and without an admin present. -/
theorem C10_accept_admin_dependence_witness :
    (∃ s', accept_task s_na 3 { task_id := 1, submit_content := none } 0 =
        .ok (s', none) ∧ s'.reviews = s_na.reviews) ∧
    (∃ s' a, accept_task s_base 3 { task_id := 1, submit_content := none } 0 =
        .ok (s', some a) ∧ countPending s' a.id ReviewType.acceptance_review = 1) := by
  constructor
  · have h := (C10_accept_admin_dependence s_na 3
      { task_id := 1, submit_content := none } 0 _ rfl rfl rfl (by decide)).1 rfl
    exact ⟨_, h, rfl⟩
  · have h := (C10_accept_admin_dependence s_base 3
      { task_id := 1, submit_content := none } 0 _ rfl rfl rfl (by decide)).2 adminU rfl
    exact ⟨_, _, h, rfl⟩

end TaskMarket
